import Mathlib

/-!
Shallow embedding of the Smart Traffic Monitoring control core.

The embedding follows the Python sources:
  * `src/src/traffic_analyzer.py`  — `TrafficAnalyzer.calculate_density`,
    `TrafficAnalyzer.get_congestion_level`
  * `src/src/signal_controller.py` — `SignalController` (state machine,
    `calculate_green_time`, `handle_emergency`, `update`,
    `switch_to_next_lane`)
  * `src/minor_real/backend/app/ml/signal_controller.py` —
    `SignalController.priority_override`
  * `src/minor_real/backend/app/ml/emergency_priority.py` —
    `EmergencyPrioritySystem`

Machine reals (Python floats) are modelled as rationals `ℚ`; vehicle counts
as `ℕ`; lane ids as `ℕ`; Python dicts keyed by string ids as insertion-ordered
association lists; wall-clock times as `ℚ` passed explicitly.
-/

namespace Traffic

/-- Per-lane density trend as produced by `TrafficAnalyzer.calculate_density`. -/
inductive Trend where
  | increasing
  | decreasing
  | stable
deriving DecidableEq, Repr

/-- Congestion levels returned by `TrafficAnalyzer.get_congestion_level`. -/
inductive Congestion where
  | none
  | low
  | medium
  | high
deriving DecidableEq, Repr

/-- Arithmetic mean of a list of counts, as a rational (models `np.mean`
on a nonempty list; the caller must avoid the empty list, where `np.mean`
yields NaN). -/
def meanQ (l : List ℕ) : ℚ :=
  (l.sum : ℚ) / (l.length : ℚ)

/-- The density record returned by `TrafficAnalyzer.calculate_density`. -/
structure Density where
  current : ℚ
  average : ℚ
  maxc : ℚ
  trend : Trend
deriving DecidableEq, Repr

/-- Trend computation inside `TrafficAnalyzer.calculate_density`
(`traffic_analyzer.py` lines 109-120).  `history` is oldest-first, as the
`deque` stores it.  With 5 or more samples the code compares
`recent = np.mean(history[-5:])` with `older = np.mean(history[:-5])` using
STRICT inequalities `recent > older * 1.2` / `recent < older * 0.8`.
With exactly 5 samples `history[:-5]` is empty and `np.mean([])` is NaN,
so both comparisons are false and the trend is `stable`; that case is
modelled by the `olderL.isEmpty` branch. -/
def calcTrend (history : List ℕ) : Trend :=
  if 5 ≤ history.length then
    let recent := meanQ (history.drop (history.length - 5))
    let olderL := history.take (history.length - 5)
    if olderL.isEmpty then Trend.stable
    else
      let older := meanQ olderL
      if recent > older * (12/10 : ℚ) then Trend.increasing
      else if recent < older * (8/10 : ℚ) then Trend.decreasing
      else Trend.stable
  else Trend.stable

/-- `TrafficAnalyzer.calculate_density` (`traffic_analyzer.py` lines 86-127):
empty history gives zeros and `stable`; otherwise `current` is the newest
sample, `average` the mean, `maxc` the maximum, and the trend is `calcTrend`. -/
def calculate_density (history : List ℕ) : Density :=
  if history.isEmpty then
    { current := 0, average := 0, maxc := 0, trend := Trend.stable }
  else
    { current := (history.getLastD 0 : ℕ)
      average := meanQ history
      maxc := (history.foldr Nat.max 0 : ℕ)
      trend := calcTrend history }

/-- Density thresholds `{low, medium, high}` from the configuration. -/
structure Thresholds where
  low : ℚ
  medium : ℚ
  high : ℚ
deriving DecidableEq, Repr

/-- `TrafficAnalyzer.get_congestion_level` (`traffic_analyzer.py` lines
181-205): classifies `calculate_density(...).current` as
`none` when it is 0, `low` when it is below the low threshold, `medium`
when below the medium threshold, and `high` otherwise.  Note the source
never consults `thresholds.high`. -/
def get_congestion_level (history : List ℕ) (thr : Thresholds) : Congestion :=
  let current := (calculate_density history).current
  if current = 0 then Congestion.none
  else if current < thr.low then Congestion.low
  else if current < thr.medium then Congestion.medium
  else Congestion.high

/-- Modelled from the spec (claim C3's wording): classification of a current
density against thresholds — below `low` gives `none`, below `medium` gives
`low`, below `high` gives `medium`, else `high`.  Used only to compare the
spec's rule with the source's `get_congestion_level`. -/
def congestionSpecRule (current : ℚ) (thr : Thresholds) : Congestion :=
  if current < thr.low then Congestion.none
  else if current < thr.medium then Congestion.low
  else if current < thr.high then Congestion.medium
  else Congestion.high

/-- Modelled from the amended reading of the source: `none` exactly when the
current density is zero, `low` when it is nonzero but below the low
threshold, `medium` when below the medium threshold, `high` otherwise; the
high threshold is never consulted. -/
def congestionAmendedRule (current : ℚ) (thr : Thresholds) : Congestion :=
  if current = 0 then Congestion.none
  else if current < thr.low then Congestion.low
  else if current < thr.medium then Congestion.medium
  else Congestion.high

/-- Modelled from the spec (claim C4's wording): trend using the NON-strict
comparisons `recent ≥ 1.2 × older` / `recent ≤ 0.8 × older`.  Used only to
compare the spec's rule with the source's `calcTrend`. -/
def trendSpecRule (history : List ℕ) : Trend :=
  if 5 ≤ history.length then
    let recent := meanQ (history.drop (history.length - 5))
    let olderL := history.take (history.length - 5)
    if olderL.isEmpty then Trend.stable
    else
      let older := meanQ olderL
      if recent ≥ older * (12/10 : ℚ) then Trend.increasing
      else if recent ≤ older * (8/10 : ℚ) then Trend.decreasing
      else Trend.stable
  else Trend.stable

/-! ### `src/src/signal_controller.py` — the adaptive signal controller -/

/-- Signal states (the `SignalState` enum).  `ALL_RED` exists in the enum but
is never assigned by the controller (all-red is realised by setting every
lane to `RED`). -/
inductive SignalState where
  | RED
  | YELLOW
  | GREEN
  | ALL_RED
deriving DecidableEq, Repr

/-- The controller configuration dictionary (`SignalController.__init__`
defaults, possibly updated by a caller-supplied config). -/
structure Config where
  min_green_time : ℚ
  max_green_time : ℚ
  yellow_time : ℚ
  all_red_time : ℚ
  adaptive_mode : Bool
  emergency_priority : Bool
  emergency_green_time : ℚ
  density_thresholds : Thresholds
  mult_low : ℚ
  mult_medium : ℚ
  mult_high : ℚ
deriving DecidableEq, Repr

/-- The default configuration built in `SignalController.__init__`. -/
def defaultConfig : Config where
  min_green_time := 10
  max_green_time := 60
  yellow_time := 3
  all_red_time := 2
  adaptive_mode := true
  emergency_priority := true
  emergency_green_time := 30
  density_thresholds := { low := 5, medium := 15, high := 30 }
  mult_low := 1
  mult_medium := 3/2
  mult_high := 2

/-- One entry of `self.signals`: per-lane signal record. -/
structure Signal where
  state : SignalState
  time_remaining : ℚ
  cycle_start : ℚ
  green_time : ℚ
deriving DecidableEq, Repr

instance : Inhabited Signal :=
  ⟨{ state := SignalState.RED, time_remaining := 0, cycle_start := 0, green_time := 0 }⟩

/-- Per-lane data inside the `analysis` dictionary passed to
`SignalController.update`: the `emergency` count and the `density` record. -/
structure LaneData where
  emergency : ℕ
  density : Density
deriving DecidableEq, Repr

instance : Inhabited LaneData :=
  ⟨{ emergency := 0,
     density := { current := 0, average := 0, maxc := 0, trend := Trend.stable } }⟩

/-- The `analysis` dictionary passed to `update`: the `has_emergency` flag
and the per-lane data, indexed by lane id (the analyzer produces the lane
dict with keys `0 .. num_lanes-1` in insertion order, so a list models it;
`analysis['lanes'].get(lane_id, \x7b\x7d)` becomes `getD` with the default
lane data). -/
structure Analysis where
  has_emergency : Bool
  lanes : List LaneData
deriving DecidableEq, Repr

/-- Full controller state: `self.num_lanes`, `self.signals` (lane id is the
list index), `self.active_lane`, `self.cycle_count`, plus the
`self.next_lane` / `self.emergency_mode` attributes that `handle_emergency`
assigns (modelled as `Option`s since they do not exist before the first
assignment; no other method ever reads them). -/
structure CState where
  num_lanes : ℕ
  signals : List Signal
  active_lane : ℕ
  cycle_count : ℕ
  next_lane : Option ℕ
  emergency_mode : Option Bool
deriving DecidableEq, Repr

/-- `self.signals[i]`, with the `Inhabited` default out of range (the Python
dict access never goes out of range on the controller's own call sites). -/
def CState.sig (s : CState) (i : ℕ) : Signal :=
  s.signals.getD i default

/-- `SignalController.__init__` (lines 62-79): all lanes `RED` with
`green_time = min_green_time`, then lane 0 is made `GREEN` with
`time_remaining = min_green_time`; `t0` is the construction wall-clock time
(`time.time()` stored in each `cycle_start`). -/
def initState (cfg : Config) (num_lanes : ℕ) (t0 : ℚ) : CState :=
  let base : Signal :=
    { state := SignalState.RED, time_remaining := 0, cycle_start := t0,
      green_time := cfg.min_green_time }
  let lane0 := { base with state := SignalState.GREEN,
                           time_remaining := cfg.min_green_time }
  { num_lanes := num_lanes
    signals := (List.replicate num_lanes base).set 0 lane0
    active_lane := 0
    cycle_count := 0
    next_lane := Option.none
    emergency_mode := Option.none }

/-- `SignalController.calculate_green_time` (lines 83-113). -/
def calculate_green_time (cfg : Config) (d : Density) : ℚ :=
  if ¬cfg.adaptive_mode then cfg.min_green_time
  else
    let multiplier :=
      if d.current ≥ cfg.density_thresholds.high then cfg.mult_high
      else if d.current ≥ cfg.density_thresholds.medium then cfg.mult_medium
      else cfg.mult_low
    let green_time := cfg.min_green_time * multiplier
    max cfg.min_green_time (min green_time cfg.max_green_time)

/-- `SignalController.handle_emergency` (lines 115-136): no-op when
`emergency_priority` is off or when the emergency lane is the active lane;
otherwise, if the active signal is `GREEN` it becomes `YELLOW` with
`time_remaining = yellow_time` (leaving `cycle_start` and `green_time`
untouched), and `next_lane` / `emergency_mode` are assigned. -/
def handle_emergency (cfg : Config) (s : CState) (lane_id : ℕ) : CState :=
  if ¬cfg.emergency_priority then s
  else if s.active_lane ≠ lane_id then
    let cur := s.sig s.active_lane
    let curY := { cur with state := SignalState.YELLOW,
                           time_remaining := cfg.yellow_time }
    let s1 :=
      if cur.state = SignalState.GREEN then
        { s with signals := s.signals.set s.active_lane curY }
      else s
    { s1 with next_lane := Option.some lane_id, emergency_mode := Option.some true }
  else s

/-- The emergency scan at the top of `update` (lines 151-155): when
`has_emergency` is set, the first lane (in dict order, i.e. ascending id)
whose `emergency` count is positive. -/
def firstEmergencyLane (an : Analysis) : Option ℕ :=
  an.lanes.findIdx? (fun ld => 0 < ld.emergency)

/-- The priority score computed in `switch_to_next_lane` (lines 218-242):
`-1` for the active lane, `1000` for a lane with a pending emergency, else
the current density boosted by `1.2` when the trend is increasing. -/
def lanePriority (s : CState) (an : Analysis) (lane_id : ℕ) : ℚ :=
  if lane_id = s.active_lane then -1
  else
    let ld := an.lanes.getD lane_id default
    if 0 < ld.emergency then 1000
    else
      let priority := ld.density.current
      if ld.density.trend = Trend.increasing then priority * (12/10 : ℚ)
      else priority

/-- `max(priorities, key=priorities.get)` over keys `0 .. n-1` in insertion
order: the FIRST index attaining the maximum (Python's `max` keeps the
earlier element on ties). -/
def argmaxLane (n : ℕ) (f : ℕ → ℚ) : ℕ :=
  (List.range n).foldl (fun best i => if f best < f i then i else best) 0

/-- `SignalController.switch_to_next_lane` (lines 208-268): pick the
highest-priority lane, compute its green time (overridden to
`emergency_green_time` when it has a pending emergency), make it `GREEN`
and active, bump the cycle counter.  `tSwitch` is the `time.time()` read
at line 261. -/
def switch_to_next_lane (cfg : Config) (s : CState) (an : Analysis) (tSwitch : ℚ) :
    CState :=
  let next_lane := argmaxLane s.num_lanes (lanePriority s an)
  let ld := an.lanes.getD next_lane default
  let gt0 := calculate_green_time cfg ld.density
  let green_time := if 0 < ld.emergency then cfg.emergency_green_time else gt0
  let nextSig := { (s.sig next_lane) with
                     state := SignalState.GREEN
                     cycle_start := tSwitch
                     green_time := green_time
                     time_remaining := green_time }
  { s with
      active_lane := next_lane
      signals := s.signals.set next_lane nextSig
      cycle_count := s.cycle_count + 1 }

/-- The body of the all-red loop at lines 177-178: one signal forced to RED. -/
def setRed (sg : Signal) : Signal :=
  { sg with state := SignalState.RED }

/-- The all-red step inside `update`'s YELLOW branch (lines 172-178): the
active signal's `cycle_start` is reset to `now` and every signal's state is
set to `RED`. -/
def allRedState (s : CState) (now : ℚ) : CState :=
  let actR := { (s.sig s.active_lane) with state := SignalState.RED, cycle_start := now }
  let s1 := { s with signals := s.signals.set s.active_lane actR }
  { s1 with signals := s1.signals.map setRed }

/-- The emergency-vehicle scan at the top of `update` (lines 150-155). -/
def emergencyScan (cfg : Config) (s : CState) (an : Analysis) : CState :=
  if an.has_emergency then
    match firstEmergencyLane an with
    | Option.some lid => handle_emergency cfg s lid
    | Option.none => s
  else s

/-- The final loop of `update` (lines 188-191): the (possibly new) active
lane's `time_remaining` is recomputed from the `time_elapsed` captured
before the state machine ran. -/
def patchTimeRemaining (s2 : CState) (time_elapsed : ℚ) : CState :=
  let act2 := s2.sig s2.active_lane
  let act2' := { act2 with time_remaining := max 0 (act2.green_time - time_elapsed) }
  { s2 with signals := s2.signals.set s2.active_lane act2' }

/-- `SignalController.update` (lines 138-206).  `now` models the
`time.time()` at line 148; the `time.sleep(all_red_time)` before
`switch_to_next_lane` means its `time.time()` reads `now + all_red_time`. -/
def update (cfg : Config) (s : CState) (now : ℚ) (an : Analysis) : CState :=
  let s1 := emergencyScan cfg s an
  let active := s1.sig s1.active_lane
  let time_elapsed := now - active.cycle_start
  let activeY := { active with state := SignalState.YELLOW, cycle_start := now,
                               time_remaining := cfg.yellow_time }
  let s2 :=
    if active.state = SignalState.GREEN then
      if time_elapsed ≥ active.green_time then
        { s1 with signals := s1.signals.set s1.active_lane activeY }
      else s1
    else if active.state = SignalState.YELLOW then
      if time_elapsed ≥ cfg.yellow_time then
        switch_to_next_lane cfg (allRedState s1 now) an (now + cfg.all_red_time)
      else s1
    else s1
  patchTimeRemaining s2 time_elapsed

/-- One external operation on the controller: a `update(analysis)` call at a
wall-clock time, or a direct `handle_emergency(lane_id)` call. -/
inductive Op where
  | tick (now : ℚ) (an : Analysis)
  | emergency (lane_id : ℕ)
deriving Repr

/-- Apply one operation. -/
def stepOp (cfg : Config) (s : CState) : Op → CState
  | Op.tick now an => update cfg s now an
  | Op.emergency lid => handle_emergency cfg s lid

/-- Run a sequence of operations from a state. -/
def runOps (cfg : Config) (s : CState) (ops : List Op) : CState :=
  ops.foldl (stepOp cfg) s

/-- A signal showing `GREEN` or `YELLOW`. -/
def Signal.goY (sg : Signal) : Prop :=
  sg.state = SignalState.GREEN ∨ sg.state = SignalState.YELLOW

instance (sg : Signal) : Decidable sg.goY := by
  unfold Signal.goY; infer_instance

/-- The safety invariant: any lane showing `GREEN` or `YELLOW` is the active
lane (hence at most one lane shows `GREEN`/`YELLOW`; every other lane shows
`RED` or `ALL_RED`). -/
def Inv (s : CState) : Prop :=
  ∀ i : ℕ, (s.sig i).goY → i = s.active_lane

/-! ### `src/minor_real/backend/app/ml/signal_controller.py` and
`emergency_priority.py` — the override priority manager -/

/-- The minor_real `SignalController` timing parameters
(`min_green_time=15, max_green_time=120, default_green_time=30`). -/
structure MRConfig where
  min_green_time : ℚ
  max_green_time : ℚ
  default_green_time : ℚ
deriving DecidableEq, Repr

/-- The dictionary returned by `SignalController.priority_override`
(minus the wall-clock `timestamp` field). -/
structure OverrideConfig where
  direction : String
  green_time : ℚ
  clear_time : ℚ
  priority_level : String
deriving DecidableEq, Repr

/-- `SignalController.priority_override` (minor_real, lines 114-147). -/
def priority_override (c : MRConfig) (direction : String) (priority_level : String) :
    OverrideConfig :=
  if priority_level = "emergency" then
    { direction := direction, green_time := c.max_green_time, clear_time := 10,
      priority_level := priority_level }
  else if priority_level = "public_transport" then
    { direction := direction, green_time := c.default_green_time + 15, clear_time := 5,
      priority_level := priority_level }
  else
    { direction := direction, green_time := c.default_green_time, clear_time := 0,
      priority_level := priority_level }

/-- One detected vehicle record, as far as
`EmergencyPrioritySystem._classify_emergency_type` reads it
(only `class_name`). -/
structure Vehicle where
  class_name : String
deriving DecidableEq, Repr

/-- `EmergencyPrioritySystem._classify_emergency_type` (lines 103-128). -/
def classify_emergency_type (emergency_vehicles : List Vehicle) : String :=
  if emergency_vehicles.isEmpty then "emergency"
  else
    let vehicle_types := emergency_vehicles.map Vehicle.class_name
    if vehicle_types.contains ("bus") ∨ vehicle_types.contains ("truck") then "fire"
    else if vehicle_types.contains ("car") then "ambulance"
    else "emergency"

/-- One value of the `self.active_overrides` dict (the database-only and
purely informational fields `override_config` etc. are carried along as the
source stores them). -/
structure OverrideData where
  location_id : String
  direction : String
  emergency_type : String
  vehicle_count : ℕ
  started_at : ℚ
  expires_at : ℚ
  override_config : OverrideConfig
deriving DecidableEq, Repr

/-- `EmergencyPrioritySystem` state: the constructor parameters and the
`active_overrides` dict, modelled as an insertion-ordered association list
from the string override id. -/
structure EPSState where
  priority_duration : ℚ
  clear_time : ℚ
  active_overrides : List (String × OverrideData)
deriving DecidableEq, Repr

/-- Python dict assignment `d[k] = v` on an insertion-ordered dict: replace
in place if the key exists, else append. -/
def dictSet (l : List (String × OverrideData)) (k : String) (v : OverrideData) :
    List (String × OverrideData) :=
  if l.any (fun kv => kv.1 = k) then
    l.map (fun kv => if kv.1 = k then (k, v) else kv)
  else l ++ [(k, v)]

/-- The override id built at line 73:
`f"{location_id}_{direction}_{datetime.utcnow().timestamp()}"`. -/
def mkOverrideId (location_id direction : String) (now : ℚ) : String :=
  location_id ++ "_" ++ direction ++ "_" ++ toString now

/-- `EmergencyPrioritySystem.handle_emergency_detection` (lines 40-101),
restricted to its in-memory effect (the database writes and log lines are
I/O on external collaborators).  `now` models `datetime.utcnow()`.  Returns
the new state together with `False` when no emergency vehicles were passed
(the `"no_emergency"` early return) and `True` when an override was stored. -/
def handle_emergency_detection (c : MRConfig) (sys : EPSState)
    (location_id direction : String) (emergency_vehicles : List Vehicle) (now : ℚ) :
    EPSState × Bool :=
  if emergency_vehicles.isEmpty then (sys, false)
  else
    let emergency_type := classify_emergency_type emergency_vehicles
    let override := priority_override c direction ("emergency")
    let override_id := mkOverrideId location_id direction now
    let data : OverrideData :=
      { location_id := location_id
        direction := direction
        emergency_type := emergency_type
        vehicle_count := emergency_vehicles.length
        started_at := now
        expires_at := now + sys.priority_duration
        override_config := override }
    ({ sys with active_overrides := dictSet sys.active_overrides override_id data },
     true)

/-- `EmergencyPrioritySystem.check_expired_overrides` (lines 200-221):
collect the ids whose `expires_at` has been reached (`current_time >=
expires_at`), delete those ids from the dict, and return how many were
collected. -/
def check_expired_overrides (sys : EPSState) (now : ℚ) : EPSState × ℕ :=
  let expired := (sys.active_overrides.filter
    (fun kv => kv.2.expires_at ≤ now)).map Prod.fst
  ({ sys with active_overrides :=
      sys.active_overrides.filter (fun kv => ¬expired.contains kv.1) },
   expired.length)

/-- `EmergencyPrioritySystem.get_active_overrides` (lines 245-253): the list
of currently stored overrides with their ids. -/
def get_active_overrides (sys : EPSState) : List (String × OverrideData) :=
  sys.active_overrides

/-- The spec's `activePriorityFor(laneId)`, derived from
`get_active_overrides`: does any stored override target this direction? -/
def active_priority_for (sys : EPSState) (direction : String) : Bool :=
  (get_active_overrides sys).any (fun kv => kv.2.direction = direction)

/-- `EmergencyPrioritySystem.manual_clear_override` (lines 255-273):
`False` when the id is absent; otherwise delete it and return `True`. -/
def manual_clear_override (sys : EPSState) (override_id : String) :
    EPSState × Bool :=
  if ¬sys.active_overrides.any (fun kv => kv.1 = override_id) then (sys, false)
  else
    ({ sys with active_overrides :=
        sys.active_overrides.filter (fun kv => ¬kv.1 = override_id) },
     true)

/-- Number of stored overrides targeting a direction. -/
def overridesFor (sys : EPSState) (direction : String) : ℕ :=
  (sys.active_overrides.filter (fun kv => kv.2.direction = direction)).length

/-! ### Concrete example fixtures used by witnesses and counterexamples -/

/-- An analysis reporting an emergency vehicle in lane 1 (lane 0 quiet). -/
def exAn : Analysis where
  has_emergency := true
  lanes :=
    [ default,
      { emergency := 1,
        density := { current := 2, average := 2, maxc := 2, trend := Trend.stable } } ]

/-- A two-lane controller state with lane 0 GREEN since time 0 for a planned
20 seconds and lane 1 RED. -/
def exGreenState : CState where
  num_lanes := 2
  signals :=
    [ { state := SignalState.GREEN, time_remaining := 20, cycle_start := 0,
        green_time := 20 },
      { state := SignalState.RED, time_remaining := 0, cycle_start := 0,
        green_time := 10 } ]
  active_lane := 0
  cycle_count := 0
  next_lane := Option.none
  emergency_mode := Option.none

/-- The default configuration with emergency priority disabled. -/
def exCfgNoEP : Config :=
  { defaultConfig with emergency_priority := false }

/-- The minor_real controller defaults
(`min_green_time=15, max_green_time=120, default_green_time=30`). -/
def exMRConfig : MRConfig where
  min_green_time := 15
  max_green_time := 120
  default_green_time := 30

/-- An emergency priority system with the default 60 s priority duration and
no active overrides. -/
def exEPS : EPSState where
  priority_duration := 60
  clear_time := 10
  active_overrides := []

/-- A density sample of 20 vehicles. -/
def exDensity : Density where
  current := 20
  average := 20
  maxc := 20
  trend := Trend.stable

/-! ### List access helper lemmas -/

theorem getD_set_lt {α : Type} [Inhabited α] (l : List α) (i : ℕ) (a : α)
    (h : i < l.length) : (l.set i a).getD i default = a := by
  simp [List.getD_eq_getElem?_getD, List.getElem?_set_eq_of_lt, h]

theorem getD_set_ne {α : Type} [Inhabited α] (l : List α) {i j : ℕ} (a : α)
    (h : i ≠ j) : (l.set i a).getD j default = l.getD j default := by
  simp [List.getD_eq_getElem?_getD, List.getElem?_set_ne, h]

theorem getD_set_ge {α : Type} [Inhabited α] (l : List α) {i : ℕ} (a : α)
    (h : l.length ≤ i) : (l.set i a).getD i default = l.getD i default := by
  rw [List.set_eq_of_length_le h]

theorem getD_map_lt {α β : Type} [Inhabited α] [Inhabited β] (l : List α)
    (f : α → β) {i : ℕ} (h : i < l.length) :
    (l.map f).getD i default = f (l.getD i default) := by
  rw [List.getD_eq_getElem?_getD, List.getElem?_map, List.getD_eq_getElem?_getD,
    List.getElem?_eq_getElem h]
  simp

theorem getD_map_ge {α β : Type} [Inhabited α] [Inhabited β] (l : List α)
    (f : α → β) {i : ℕ} (h : l.length ≤ i) :
    (l.map f).getD i default = default := by
  rw [List.getD_eq_getElem?_getD, List.getElem?_map, List.getElem?_eq_none (by simpa)]
  rfl

theorem getD_ge {α : Type} [Inhabited α] (l : List α) {i : ℕ} (h : l.length ≤ i) :
    l.getD i default = default := by
  rw [List.getD_eq_getElem?_getD, List.getElem?_eq_none (by simpa), Option.getD_none]

/-! ### Invariant lemmas for the `src/src` controller (claim C1) -/

theorem default_not_goY : ¬(default : Signal).goY := by
  intro h
  rcases h with h | h <;> simp [default] at h

/-- `sig` at an index at or beyond the signal list is the default (RED). -/
theorem sig_ge (s : CState) {i : ℕ} (h : s.signals.length ≤ i) :
    s.sig i = default := by
  unfold CState.sig
  exact getD_ge _ h

/-- The initial state satisfies the invariant. -/
theorem inv_initState (cfg : Config) (n : ℕ) (t0 : ℚ) : Inv (initState cfg n t0) := by
  intro i hi
  show i = 0
  by_contra hne
  have hner : (0 : ℕ) ≠ i := fun h => hne h.symm
  unfold initState CState.sig at hi
  simp only at hi
  rw [getD_set_ne _ _ hner] at hi
  rcases Nat.lt_or_ge i (List.replicate n
      { state := SignalState.RED, time_remaining := 0, cycle_start := t0,
        green_time := cfg.min_green_time } : List Signal).length with hlen | hlen
  · rw [List.getD_eq_getElem?_getD, List.getElem?_eq_getElem hlen,
      List.getElem_replicate] at hi
    rcases hi with h | h <;> simp at h
  · rw [getD_ge _ hlen] at hi
    exact default_not_goY hi

/-- Setting the active lane's signal preserves the invariant whatever the
new signal value is. -/
theorem inv_set_active (s : CState) (a : Signal) (h : Inv s) :
    Inv { s with signals := s.signals.set s.active_lane a } := by
  intro i hi
  show i = s.active_lane
  unfold CState.sig at hi
  simp only at hi
  by_cases hia : s.active_lane = i
  · exact hia.symm
  · rw [getD_set_ne _ _ hia] at hi
    exact h i hi

/-- The invariant ignores the `next_lane` / `emergency_mode` flags. -/
theorem inv_flags (s : CState) (nl : Option ℕ) (em : Option Bool) (h : Inv s) :
    Inv { s with next_lane := nl, emergency_mode := em } :=
  fun i hi => h i hi

/-- `handle_emergency` preserves the invariant. -/
theorem inv_handle_emergency (cfg : Config) (s : CState) (lid : ℕ) (h : Inv s) :
    Inv (handle_emergency cfg s lid) := by
  unfold handle_emergency
  split
  · exact h
  dsimp only
  split
  · split
    · exact inv_flags _ _ _ (inv_set_active s _ h)
    · exact inv_flags _ _ _ h
  · exact h

/-- `emergencyScan` preserves the invariant. -/
theorem inv_emergencyScan (cfg : Config) (s : CState) (an : Analysis) (h : Inv s) :
    Inv (emergencyScan cfg s an) := by
  unfold emergencyScan
  split
  · cases hE : firstEmergencyLane an with
    | none => simpa [hE] using h
    | some lid => simpa [hE] using inv_handle_emergency cfg s lid h
  · exact h

/-- Mapping every signal to RED makes any `getD` read RED. -/
theorem state_getD_map_red (l : List Signal) (i : ℕ) :
    ((l.map setRed).getD i default).state = SignalState.RED := by
  rcases Nat.lt_or_ge i l.length with hlen | hlen
  · rw [getD_map_lt _ _ hlen]
    rfl
  · rw [getD_map_ge _ _ hlen]
    rfl

/-- Every lane of the all-red intermediate state shows RED. -/
theorem allRedState_red (s : CState) (now : ℚ) (i : ℕ) :
    ((allRedState s now).sig i).state = SignalState.RED :=
  state_getD_map_red _ i

/-- No lane of the all-red intermediate state shows GREEN or YELLOW. -/
theorem allRedState_not_goY (s : CState) (now : ℚ) (i : ℕ) :
    ¬((allRedState s now).sig i).goY := by
  intro h
  rcases h with h | h <;> rw [allRedState_red] at h <;> exact absurd h (by simp)

/-- `switch_to_next_lane` on a state with no GREEN/YELLOW lane yields a
state satisfying the invariant. -/
theorem inv_switch_to_next_lane (cfg : Config) (s : CState) (an : Analysis)
    (t : ℚ) (h : ∀ i, ¬(s.sig i).goY) :
    Inv (switch_to_next_lane cfg s an t) := by
  intro i hi
  unfold switch_to_next_lane at hi ⊢
  simp only [CState.sig] at hi ⊢
  by_cases hin : argmaxLane s.num_lanes (lanePriority s an) = i
  · exact hin.symm
  · rw [getD_set_ne _ _ hin] at hi
    exact absurd hi (h i)

/-- `patchTimeRemaining` preserves the invariant. -/
theorem inv_patchTimeRemaining (s : CState) (e : ℚ) (h : Inv s) :
    Inv (patchTimeRemaining s e) := by
  unfold patchTimeRemaining
  intro i hi
  show i = s.active_lane
  simp only [CState.sig] at hi
  by_cases hia : s.active_lane = i
  · exact hia.symm
  · rw [getD_set_ne _ _ hia] at hi
    exact h i hi

/-- `update` preserves the invariant. -/
theorem inv_update (cfg : Config) (s : CState) (now : ℚ) (an : Analysis)
    (h : Inv s) : Inv (update cfg s now an) := by
  unfold update
  simp only
  have h1 := inv_emergencyScan cfg s an h
  apply inv_patchTimeRemaining
  split
  · split
    · exact inv_set_active _ _ h1
    · exact h1
  · split
    · split
      · exact inv_switch_to_next_lane cfg _ an _ (allRedState_not_goY _ now)
      · exact h1
    · exact h1

/-- Any operation preserves the invariant. -/
theorem inv_stepOp (cfg : Config) (s : CState) (op : Op) (h : Inv s) :
    Inv (stepOp cfg s op) := by
  cases op with
  | tick now an => exact inv_update cfg s now an h
  | emergency lid => exact inv_handle_emergency cfg s lid h

/-- Any sequence of operations preserves the invariant. -/
theorem inv_runOps (cfg : Config) (ops : List Op) (s : CState) (h : Inv s) :
    Inv (runOps cfg s ops) := by
  induction ops generalizing s with
  | nil => exact h
  | cons op rest ih => exact ih _ (inv_stepOp cfg s op h)

/-- `handle_emergency` never changes the active lane. -/
theorem handle_emergency_active (cfg : Config) (s : CState) (lid : ℕ) :
    (handle_emergency cfg s lid).active_lane = s.active_lane := by
  unfold handle_emergency
  split
  · rfl
  dsimp only
  split
  · split <;> rfl
  · rfl

/-- The emergency scan never changes the active lane. -/
theorem emergencyScan_active (cfg : Config) (s : CState) (an : Analysis) :
    (emergencyScan cfg s an).active_lane = s.active_lane := by
  unfold emergencyScan
  split
  · cases hE : firstEmergencyLane an with
    | none => rfl
    | some lid => exact handle_emergency_active cfg s lid
  · rfl

/-- `patchTimeRemaining` never changes the active lane. -/
theorem patchTimeRemaining_active (s : CState) (e : ℚ) :
    (patchTimeRemaining s e).active_lane = s.active_lane := rfl

/-- Either `update` took the YELLOW-expired path — in which case the
scanned active lane was YELLOW and the result routes through the all-red
state and `switch_to_next_lane` — or the active lane is unchanged. -/
theorem update_route (cfg : Config) (s : CState) (now : ℚ) (an : Analysis) :
    (((emergencyScan cfg s an).sig (emergencyScan cfg s an).active_lane).state
        = SignalState.YELLOW ∧
     update cfg s now an =
       patchTimeRemaining
         (switch_to_next_lane cfg (allRedState (emergencyScan cfg s an) now) an
           (now + cfg.all_red_time))
         (now - ((emergencyScan cfg s an).sig
             (emergencyScan cfg s an).active_lane).cycle_start))
    ∨ (update cfg s now an).active_lane = s.active_lane := by
  unfold update
  dsimp only
  split
  · split
    · right
      rw [patchTimeRemaining_active]
      exact emergencyScan_active cfg s an
    · right
      rw [patchTimeRemaining_active]
      exact emergencyScan_active cfg s an
  split
  · next hYc =>
      split
      · left
        exact ⟨hYc, rfl⟩
      · right
        rw [patchTimeRemaining_active]
        exact emergencyScan_active cfg s an
  · right
    rw [patchTimeRemaining_active]
    exact emergencyScan_active cfg s an

/-- When an `update` call moves the GREEN from lane `A` to a different lane
`B`, the transition necessarily routes through YELLOW on `A` (forced by the
emergency scan) and the global all-red state. -/
theorem update_switch_all_red (cfg : Config) (s : CState) (now : ℚ) (an : Analysis)
    (A B : ℕ) (hA : s.active_lane = A) (_hG : (s.sig A).state = SignalState.GREEN)
    (hB : (update cfg s now an).active_lane = B) (hBA : B ≠ A) :
    ((emergencyScan cfg s an).sig A).state = SignalState.YELLOW ∧
    (∀ i, ((allRedState (emergencyScan cfg s an) now).sig i).state = SignalState.RED) ∧
    update cfg s now an =
      patchTimeRemaining
        (switch_to_next_lane cfg (allRedState (emergencyScan cfg s an) now) an
          (now + cfg.all_red_time))
        (now - ((emergencyScan cfg s an).sig A).cycle_start) := by
  have hact : (emergencyScan cfg s an).active_lane = A := by
    rw [emergencyScan_active, hA]
  rcases update_route cfg s now an with ⟨hY, hroute⟩ | hroute
  · rw [hact] at hY hroute
    exact ⟨hY, fun i => allRedState_red _ now i, hroute⟩
  · rw [hroute, hA] at hB
    exact absurd hB.symm hBA

/-- The trend field of `calculate_density` is `calcTrend`. -/
theorem trend_calculate_density (h : List ℕ) :
    (calculate_density h).trend = calcTrend h := by
  unfold calculate_density
  split
  · next he =>
      rw [List.isEmpty_iff] at he
      subst he
      rfl
  · rfl

/-- Folding the argmax step over elements that never strictly beat `f L`
keeps `L`. -/
theorem argmax_foldl_const (f : ℕ → ℚ) (L : ℕ) :
    ∀ l : List ℕ, (∀ j ∈ l, f j ≤ f L) →
      l.foldl (fun best i => if f best < f i then i else best) L = L := by
  intro l
  induction l with
  | nil => intro _; rfl
  | cons a t ih =>
      intro h
      have ha : f a ≤ f L := h a (by simp)
      simp only [List.foldl_cons]
      rw [if_neg (not_lt.mpr ha)]
      exact ih fun j hj => h j (by simp [hj])

/-- If `L` occurs in the fold and strictly dominates every other element,
the argmax fold lands on `L` from any accumulator that `L` dominates. -/
theorem argmax_foldl_eq (f : ℕ → ℚ) (L : ℕ) :
    ∀ (l : List ℕ) (b : ℕ), L ∈ l → (∀ j ∈ l, j ≠ L → f j < f L) →
      (f b < f L ∨ b = L) →
      l.foldl (fun best i => if f best < f i then i else best) b = L := by
  intro l
  induction l with
  | nil => intro b hmem _ _; exact absurd hmem (List.not_mem_nil L)
  | cons a t ih =>
      intro b hmem hdom hb
      simp only [List.foldl_cons]
      have hconst : ∀ j ∈ t, f j ≤ f L := by
        intro j hj
        by_cases hjL : j = L
        · rw [hjL]
        · exact le_of_lt (hdom j (by simp [hj]) hjL)
      by_cases haL : a = L
      · subst haL
        rcases hb with hb | hb
        · rw [if_pos hb]
          exact argmax_foldl_const f a t hconst
        · subst hb
          rw [if_neg (lt_irrefl _)]
          exact argmax_foldl_const f b t hconst
      · have haf : f a < f L := hdom a (by simp) haL
        have hmem' : L ∈ t := by
          rcases List.mem_cons.mp hmem with h | h
          · exact absurd h.symm haL
          · exact h
        apply ih _ hmem' (fun j hj hne => hdom j (by simp [hj]) hne)
        by_cases hba : f b < f a
        · rw [if_pos hba]
          exact Or.inl haf
        · rw [if_neg hba]
          exact hb

/-- `argmaxLane` returns `L` whenever `L` is in range and strictly
dominates every other candidate. -/
theorem argmaxLane_eq (n : ℕ) (f : ℕ → ℚ) (L : ℕ) (hL : L < n)
    (hdom : ∀ j, j < n → j ≠ L → f j < f L) : argmaxLane n f = L := by
  unfold argmaxLane
  apply argmax_foldl_eq
  · exact List.mem_range.mpr hL
  · intro j hj hne
    exact hdom j (List.mem_range.mp hj) hne
  · by_cases h0 : (0 : ℕ) = L
    · exact Or.inr h0
    · exact Or.inl (hdom 0 (Nat.lt_of_le_of_lt (Nat.zero_le L) hL) h0)

/-- `lanePriority` depends on the state only through its active lane. -/
theorem lanePriority_congr (s s' : CState) (an : Analysis)
    (h : s.active_lane = s'.active_lane) :
    lanePriority s an = lanePriority s' an := by
  funext j
  unfold lanePriority
  rw [h]

/-- `handle_emergency` preserves the lane count. -/
theorem handle_emergency_num_lanes (cfg : Config) (s : CState) (lid : ℕ) :
    (handle_emergency cfg s lid).num_lanes = s.num_lanes := by
  unfold handle_emergency
  split
  · rfl
  dsimp only
  split
  · split <;> rfl
  · rfl

/-- `handle_emergency` preserves the signal list length. -/
theorem handle_emergency_signals_length (cfg : Config) (s : CState) (lid : ℕ) :
    (handle_emergency cfg s lid).signals.length = s.signals.length := by
  unfold handle_emergency
  split
  · rfl
  dsimp only
  split
  · split
    · exact List.length_set _ _ _
    · rfl
  · rfl

/-- The emergency scan preserves the lane count. -/
theorem emergencyScan_num_lanes (cfg : Config) (s : CState) (an : Analysis) :
    (emergencyScan cfg s an).num_lanes = s.num_lanes := by
  unfold emergencyScan
  split
  · cases hE : firstEmergencyLane an with
    | none => rfl
    | some lid => exact handle_emergency_num_lanes cfg s lid
  · rfl

/-- The emergency scan preserves the signal list length. -/
theorem emergencyScan_signals_length (cfg : Config) (s : CState) (an : Analysis) :
    (emergencyScan cfg s an).signals.length = s.signals.length := by
  unfold emergencyScan
  split
  · cases hE : firstEmergencyLane an with
    | none => rfl
    | some lid => exact handle_emergency_signals_length cfg s lid
  · rfl

/-- The all-red step preserves the active lane. -/
theorem allRedState_active (s : CState) (now : ℚ) :
    (allRedState s now).active_lane = s.active_lane := rfl

/-- The all-red step preserves the lane count. -/
theorem allRedState_num_lanes (s : CState) (now : ℚ) :
    (allRedState s now).num_lanes = s.num_lanes := rfl

/-- The all-red step preserves the signal list length. -/
theorem allRedState_signals_length (s : CState) (now : ℚ) :
    (allRedState s now).signals.length = s.signals.length := by
  unfold allRedState
  dsimp only
  rw [List.length_map, List.length_set]

/-- `patchTimeRemaining` only rewrites `time_remaining`: every signal's
state and planned green duration are preserved. -/
theorem patchTimeRemaining_sig (s2 : CState) (e : ℚ) (i : ℕ) :
    ((patchTimeRemaining s2 e).sig i).state = (s2.sig i).state ∧
    ((patchTimeRemaining s2 e).sig i).green_time = (s2.sig i).green_time := by
  unfold patchTimeRemaining CState.sig
  dsimp only
  by_cases hia : s2.active_lane = i
  · subst hia
    rcases Nat.lt_or_ge s2.active_lane s2.signals.length with hlen | hlen
    · rw [getD_set_lt _ _ _ hlen]
      exact ⟨rfl, rfl⟩
    · rw [getD_set_ge _ _ hlen]
      exact ⟨rfl, rfl⟩
  · rw [getD_set_ne _ _ hia]
    exact ⟨rfl, rfl⟩

/-! ### Claim theorems -/

/-- C1: starting from the initial controller state (exactly one lane
GREEN), applying any sequence of `update` (tick) and `handle_emergency`
calls, at most one lane is GREEN or YELLOW at every instant (every other
lane shows RED or ALL_RED); and whenever a single `update` call moves the
active GREEN from lane `A` to a different lane `B`, the transition routes
through YELLOW on `A` and through the global all-red intermediate state
(in which every lane shows RED) before `switch_to_next_lane` grants the
new GREEN — never a direct GREEN-to-GREEN jump. -/
theorem green_yellow_mutex_spec :
    (∀ (cfg : Config) (n : ℕ) (t0 : ℚ) (ops : List Op) (i j : ℕ),
       ((runOps cfg (initState cfg n t0) ops).sig i).goY →
       ((runOps cfg (initState cfg n t0) ops).sig j).goY → i = j) ∧
    (∀ (cfg : Config) (s : CState) (now : ℚ) (an : Analysis) (A B : ℕ),
       s.active_lane = A → (s.sig A).state = SignalState.GREEN →
       (update cfg s now an).active_lane = B → B ≠ A →
       ((emergencyScan cfg s an).sig A).state = SignalState.YELLOW ∧
       (∀ i, ((allRedState (emergencyScan cfg s an) now).sig i).state
          = SignalState.RED) ∧
       update cfg s now an =
         patchTimeRemaining
           (switch_to_next_lane cfg (allRedState (emergencyScan cfg s an) now) an
             (now + cfg.all_red_time))
           (now - ((emergencyScan cfg s an).sig A).cycle_start)) := by
  constructor
  · intro cfg n t0 ops i j hi hj
    have hInv := inv_runOps cfg ops _ (inv_initState cfg n t0)
    rw [hInv i hi, hInv j hj]
  · intro cfg s now an A B hA hGr hB hBA
    exact update_switch_all_red cfg s now an A B hA hGr hB hBA

/-- Witness for C1: after one emergency tick from the 2-lane initial state,
lane 1 is the unique GREEN/YELLOW lane; and the concrete mid-green
emergency `update` at time 12 routes through YELLOW and all-red. -/
theorem green_yellow_mutex_spec_witness :
    (((runOps defaultConfig (initState defaultConfig 2 0) [Op.tick 12 exAn]).sig 1).goY ∧
     ((runOps defaultConfig (initState defaultConfig 2 0) [Op.tick 12 exAn]).sig 1).goY ∧
     (1 : ℕ) = 1) ∧
    (exGreenState.active_lane = 0 ∧
     (exGreenState.sig 0).state = SignalState.GREEN ∧
     (update defaultConfig exGreenState 12 exAn).active_lane = 1 ∧
     (1 : ℕ) ≠ 0 ∧
     (((emergencyScan defaultConfig exGreenState exAn).sig 0).state
        = SignalState.YELLOW ∧
      (∀ i, ((allRedState (emergencyScan defaultConfig exGreenState exAn) 12).sig i).state
         = SignalState.RED) ∧
      update defaultConfig exGreenState 12 exAn =
        patchTimeRemaining
          (switch_to_next_lane defaultConfig
            (allRedState (emergencyScan defaultConfig exGreenState exAn) 12) exAn
            (12 + defaultConfig.all_red_time))
          (12 - ((emergencyScan defaultConfig exGreenState exAn).sig 0).cycle_start))) := by
  have hgy : ((runOps defaultConfig (initState defaultConfig 2 0)
      [Op.tick 12 exAn]).sig 1).goY := by
    apply Or.inl
    show ((update defaultConfig (initState defaultConfig 2 0) 12 exAn).sig 1).state
      = SignalState.GREEN
    norm_num [update, emergencyScan, firstEmergencyLane, handle_emergency, initState,
      exAn, allRedState, switch_to_next_lane, patchTimeRemaining, argmaxLane,
      lanePriority, calculate_green_time, defaultConfig, CState.sig, setRed,
      List.findIdx?, List.foldl, List.range, List.range.loop, List.set, List.getD,
      default, instInhabitedSignal,
      show ¬(SignalState.YELLOW = SignalState.GREEN) from (by decide),
      show ¬(SignalState.RED = SignalState.GREEN) from (by decide),
      show ¬(SignalState.RED = SignalState.YELLOW) from (by decide)]
  have hact : (update defaultConfig exGreenState 12 exAn).active_lane = 1 := by
    norm_num [update, emergencyScan, firstEmergencyLane, handle_emergency, exGreenState,
      exAn, allRedState, switch_to_next_lane, patchTimeRemaining, argmaxLane,
      lanePriority, calculate_green_time, defaultConfig, CState.sig, setRed,
      List.findIdx?, List.foldl, List.range, List.range.loop, List.set, List.getD,
      default, instInhabitedSignal,
      show ¬(SignalState.YELLOW = SignalState.GREEN) from (by decide),
      show ¬(SignalState.RED = SignalState.GREEN) from (by decide),
      show ¬(SignalState.RED = SignalState.YELLOW) from (by decide)]
  exact ⟨⟨hgy, hgy, green_yellow_mutex_spec.1 defaultConfig 2 0 [Op.tick 12 exAn] 1 1
            hgy hgy⟩,
         by decide, by decide, hact, by decide,
         green_yellow_mutex_spec.2 defaultConfig exGreenState 12 exAn 0 1
           (by decide) (by decide) hact (by decide)⟩

/-- C2: for every density input and configuration with
`minGreen ≤ maxGreen`, `calculate_green_time` returns exactly
`min_green_time` in non-adaptive mode, and in adaptive mode the clamp to
`[minGreen, maxGreen]` of `minGreen` times the multiplier selected by
comparing the current density against the high and medium thresholds; in
all cases the result lies within `[minGreen, maxGreen]`. -/
theorem calculate_green_time_spec (cfg : Config) (d : Density)
    (h : cfg.min_green_time ≤ cfg.max_green_time) :
    calculate_green_time cfg d =
      (if ¬cfg.adaptive_mode then cfg.min_green_time
       else
         max cfg.min_green_time
           (min (cfg.min_green_time *
             (if d.current ≥ cfg.density_thresholds.high then cfg.mult_high
              else if d.current ≥ cfg.density_thresholds.medium then cfg.mult_medium
              else cfg.mult_low)) cfg.max_green_time)) ∧
    cfg.min_green_time ≤ calculate_green_time cfg d ∧
    calculate_green_time cfg d ≤ cfg.max_green_time := by
  refine ⟨rfl, ?_, ?_⟩
  · unfold calculate_green_time
    split
    · exact le_refl _
    · exact le_max_left _ _
  · unfold calculate_green_time
    split
    · exact h
    · exact max_le h (min_le_right _ _)

/-- Witness for C2 at the default configuration and a density of 20
(medium band: `10 * 1.5 = 15`). -/
theorem calculate_green_time_spec_witness :
    defaultConfig.min_green_time ≤ defaultConfig.max_green_time ∧
    (calculate_green_time defaultConfig exDensity =
      (if ¬defaultConfig.adaptive_mode then defaultConfig.min_green_time
       else
         max defaultConfig.min_green_time
           (min (defaultConfig.min_green_time *
             (if exDensity.current ≥ defaultConfig.density_thresholds.high then
                defaultConfig.mult_high
              else if exDensity.current ≥ defaultConfig.density_thresholds.medium then
                defaultConfig.mult_medium
              else defaultConfig.mult_low)) defaultConfig.max_green_time)) ∧
    defaultConfig.min_green_time ≤ calculate_green_time defaultConfig exDensity ∧
    calculate_green_time defaultConfig exDensity ≤ defaultConfig.max_green_time) :=
  ⟨by norm_num [defaultConfig],
   calculate_green_time_spec defaultConfig exDensity (by norm_num [defaultConfig])⟩

/-- C3 counterexample: with the default thresholds `{low:5, medium:15,
high:30}` and a current density of 20, the source classifies `high` while
the spec's rule (below `high` means `medium`) classifies `medium`. -/
theorem get_congestion_level_spec_counterexample :
    get_congestion_level [20] { low := 5, medium := 15, high := 30 } = Congestion.high ∧
    congestionSpecRule (calculate_density [20]).current { low := 5, medium := 15, high := 30 }
      = Congestion.medium ∧
    Congestion.high ≠ Congestion.medium := by
  refine ⟨rfl, ?_, by decide⟩
  norm_num [congestionSpecRule, calculate_density, meanQ]

/-- C3 (amended): the classification of a lane's current density is `none`
exactly when the current density is zero, `low` when it is nonzero but
below the low threshold, `medium` when below the medium threshold, and
`high` otherwise; the configured high threshold is never consulted (the
classification is unchanged under any replacement of it). -/
theorem get_congestion_level_amended (history : List ℕ) (thr : Thresholds) (x : ℚ) :
    get_congestion_level history { thr with high := x }
      = congestionAmendedRule (calculate_density history).current thr := rfl

/-- C4 counterexample: for the history `[5,5,5,5,5,6,6,6,6,6]` the mean of
the most recent 5 samples (6) equals exactly 1.2 times the mean of the
older samples (5), so the spec's non-strict rule says `increasing` while
the source's strict comparison yields `stable`. -/
theorem trend_spec_counterexample :
    (calculate_density [5, 5, 5, 5, 5, 6, 6, 6, 6, 6]).trend = Trend.stable ∧
    trendSpecRule [5, 5, 5, 5, 5, 6, 6, 6, 6, 6] = Trend.increasing ∧
    Trend.stable ≠ Trend.increasing := by
  refine ⟨?_, ?_, by decide⟩
  · rw [trend_calculate_density]
    norm_num [calcTrend, meanQ]
  · norm_num [trendSpecRule, meanQ]

/-- C4 (amended): with fewer than 5 samples the trend is `stable`; with
exactly 5 samples (no older samples, where the source's `np.mean([])` is
NaN and both comparisons are false) the trend is `stable`; with more than
5 samples the trend is `increasing` exactly when the recent mean STRICTLY
exceeds 1.2 times the older mean, `decreasing` exactly when it is STRICTLY
below 0.8 times the older mean, and `stable` otherwise. -/
theorem calcTrend_amended_spec (history : List ℕ) :
    (history.length < 5 → (calculate_density history).trend = Trend.stable) ∧
    (history.length = 5 → (calculate_density history).trend = Trend.stable) ∧
    (5 < history.length →
      (calculate_density history).trend =
        (if meanQ (history.drop (history.length - 5))
              > meanQ (history.take (history.length - 5)) * (12/10 : ℚ) then
           Trend.increasing
         else if meanQ (history.drop (history.length - 5))
              < meanQ (history.take (history.length - 5)) * (8/10 : ℚ) then
           Trend.decreasing
         else Trend.stable)) := by
  refine ⟨?_, ?_, ?_⟩ <;> intro hlen <;> rw [trend_calculate_density] <;> unfold calcTrend
  · rw [if_neg (by omega)]
  · rw [if_pos (by omega)]
    have h0 : history.length - 5 = 0 := by omega
    rw [h0]
    rfl
  · rw [if_pos (by omega)]
    have hne : ¬(history.take (history.length - 5)).isEmpty = true := by
      rw [List.isEmpty_iff, List.take_eq_nil_iff]
      push_neg
      constructor
      · omega
      · intro hn
        rw [hn] at hlen
        simp at hlen
    rw [if_neg hne]

/-- C5 counterexample: in the default configuration (`max_green_time = 60`,
`emergency_green_time = 30`), the lane granted GREEN after an emergency
preemption receives a planned duration of 30 seconds — the configured
emergency green time — not `maxGreen = 60`. -/
theorem emergency_green_not_max_counterexample :
    ((update defaultConfig (initState defaultConfig 2 0) 12 exAn).sig 1).state
      = SignalState.GREEN ∧
    ((update defaultConfig (initState defaultConfig 2 0) 12 exAn).sig 1).green_time
      = 30 ∧
    defaultConfig.max_green_time = 60 ∧ (30 : ℚ) ≠ 60 := by
  refine ⟨?_, ?_, rfl, by norm_num⟩ <;>
    norm_num [update, emergencyScan, firstEmergencyLane, handle_emergency, initState,
      exAn, allRedState, switch_to_next_lane, patchTimeRemaining, argmaxLane,
      lanePriority, calculate_green_time, defaultConfig, CState.sig, setRed,
      List.findIdx?, List.foldl, List.range, List.range.loop, List.set, List.getD,
      default, instInhabitedSignal,
      show ¬(SignalState.YELLOW = SignalState.GREEN) from (by decide),
      show ¬(SignalState.RED = SignalState.GREEN) from (by decide),
      show ¬(SignalState.RED = SignalState.YELLOW) from (by decide)]

/-- C5 (amended): for every emergency override request the resolved
configuration carries `greenTime = maxGreen` and `clearTime = 10`
(minor_real `priority_override`); and when `switch_to_next_lane` grants
GREEN to a lane with a pending emergency, that lane's planned duration is
the configured `emergency_green_time` — a constant independent of the
lane's measured density — not `maxGreen`. -/
theorem priority_override_emergency_spec (c : MRConfig) (dir : String)
    (cfg : Config) (s : CState) (an : Analysis) (t : ℚ) (L : ℕ)
    (hE : 0 < (an.lanes.getD L default).emergency)
    (hsel : argmaxLane s.num_lanes (lanePriority s an) = L)
    (hlen : L < s.signals.length) :
    priority_override c dir ("emergency")
      = { direction := dir, green_time := c.max_green_time, clear_time := 10,
          priority_level := "emergency" } ∧
    (switch_to_next_lane cfg s an t).active_lane = L ∧
    ((switch_to_next_lane cfg s an t).sig L).state = SignalState.GREEN ∧
    ((switch_to_next_lane cfg s an t).sig L).green_time
      = cfg.emergency_green_time := by
  refine ⟨?_, ?_, ?_, ?_⟩
  · unfold priority_override
    rw [if_pos rfl]
  · unfold switch_to_next_lane
    simp only [hsel]
  · unfold switch_to_next_lane CState.sig
    simp only [hsel]
    rw [getD_set_lt _ _ _ hlen]
  · unfold switch_to_next_lane CState.sig
    simp only [hsel]
    rw [getD_set_lt _ _ _ hlen]
    simp only
    rw [if_pos hE]

/-- Witness for C5 (amended): lane 1 of `exGreenState` has a pending
emergency in `exAn` and wins the selection. -/
theorem priority_override_emergency_spec_witness :
    (0 < (exAn.lanes.getD 1 default).emergency ∧
     argmaxLane exGreenState.num_lanes (lanePriority exGreenState exAn) = 1 ∧
     1 < exGreenState.signals.length) ∧
    (priority_override exMRConfig ("north") ("emergency")
      = { direction := "north", green_time := exMRConfig.max_green_time,
          clear_time := 10, priority_level := "emergency" } ∧
     (switch_to_next_lane defaultConfig exGreenState exAn 14).active_lane = 1 ∧
     ((switch_to_next_lane defaultConfig exGreenState exAn 14).sig 1).state
       = SignalState.GREEN ∧
     ((switch_to_next_lane defaultConfig exGreenState exAn 14).sig 1).green_time
       = defaultConfig.emergency_green_time) :=
  ⟨⟨by decide, by decide, by decide⟩,
   priority_override_emergency_spec exMRConfig ("north") defaultConfig exGreenState
     exAn 14 1 (by decide) (by decide) (by decide)⟩

/-- C6 counterexample: two consecutive emergency requests for the same
lane (direction "north") at timestamps 0 and 1 leave TWO active overrides
targeting that lane — the second request does not extend or replace the
first. -/
theorem second_request_duplicates_counterexample :
    overridesFor
      ((handle_emergency_detection exMRConfig
        ((handle_emergency_detection exMRConfig exEPS ("loc") ("north")
          [⟨"car"⟩] 0).1)
        ("loc") ("north") [⟨"car"⟩] 1).1) ("north") = 2 ∧
    (2 : ℕ) ≠ 1 := by
  constructor
  · rfl
  · decide

/-- One fresh-id emergency detection appends exactly one override for the
requested direction. -/
theorem handle_emergency_detection_step (c : MRConfig) (t : EPSState)
    (loc dir : String) (vs : List Vehicle) (tm : ℚ) (hvs : vs ≠ [])
    (hf : t.active_overrides.any (fun kv => kv.1 = mkOverrideId loc dir tm) = false) :
    ∃ d : OverrideData,
      (handle_emergency_detection c t loc dir vs tm).1
        = { t with active_overrides :=
              t.active_overrides ++ [(mkOverrideId loc dir tm, d)] } ∧
      d.direction = dir ∧ d.expires_at = tm + t.priority_duration := by
  refine ⟨{ location_id := loc, direction := dir,
            emergency_type := classify_emergency_type vs,
            vehicle_count := vs.length, started_at := tm,
            expires_at := tm + t.priority_duration,
            override_config := priority_override c dir ("emergency") },
    ?_, rfl, rfl⟩
  unfold handle_emergency_detection
  rw [if_neg (by simp [List.isEmpty_iff, hvs])]
  simp only
  unfold dictSet
  rw [if_neg (by simp [hf])]

/-- C6 (amended): a second emergency request for the same lane while an
earlier override for it is unexpired does NOT extend or replace it:
provided the generated timestamped ids are fresh and distinct, the second
request appends an additional override under its own id, so two active
overrides target that lane, each with its own expiry. -/
theorem repeat_request_appends_spec (c : MRConfig) (sys : EPSState)
    (loc dir : String) (vs1 vs2 : List Vehicle) (t1 t2 : ℚ)
    (h1 : vs1 ≠ []) (h2 : vs2 ≠ [])
    (hf1 : sys.active_overrides.any
      (fun kv => kv.1 = mkOverrideId loc dir t1) = false)
    (hf2 : sys.active_overrides.any
      (fun kv => kv.1 = mkOverrideId loc dir t2) = false)
    (hid : mkOverrideId loc dir t1 ≠ mkOverrideId loc dir t2) :
    overridesFor
      ((handle_emergency_detection c
        ((handle_emergency_detection c sys loc dir vs1 t1).1)
        loc dir vs2 t2).1) dir
      = overridesFor sys dir + 2 ∧
    ∃ d1 d2 : OverrideData,
      ((handle_emergency_detection c
        ((handle_emergency_detection c sys loc dir vs1 t1).1)
        loc dir vs2 t2).1).active_overrides
        = sys.active_overrides
          ++ [(mkOverrideId loc dir t1, d1), (mkOverrideId loc dir t2, d2)] ∧
      d1.direction = dir ∧ d1.expires_at = t1 + sys.priority_duration ∧
      d2.direction = dir ∧ d2.expires_at = t2 + sys.priority_duration := by
  obtain ⟨d1, hs1, hd1dir, hd1exp⟩ :=
    handle_emergency_detection_step c sys loc dir vs1 t1 h1 hf1
  have hf2' : ((handle_emergency_detection c sys loc dir vs1 t1).1).active_overrides.any
      (fun kv => kv.1 = mkOverrideId loc dir t2) = false := by
    rw [hs1]
    simp only [List.any_append, hf2, List.any_cons, List.any_nil]
    simp [hid]
  obtain ⟨d2, hs2, hd2dir, hd2exp⟩ :=
    handle_emergency_detection_step c _ loc dir vs2 t2 h2 hf2'
  have hdur : ((handle_emergency_detection c sys loc dir vs1 t1).1).priority_duration
      = sys.priority_duration := by
    rw [hs1]
  rw [hdur] at hd2exp
  have hactive : ((handle_emergency_detection c
        ((handle_emergency_detection c sys loc dir vs1 t1).1)
        loc dir vs2 t2).1).active_overrides
      = sys.active_overrides
        ++ [(mkOverrideId loc dir t1, d1), (mkOverrideId loc dir t2, d2)] := by
    rw [hs2]
    simp only
    rw [hs1]
    simp [List.append_assoc]
  constructor
  · unfold overridesFor
    rw [hactive, List.filter_append]
    simp [hd1dir, hd2dir]
  · exact ⟨d1, d2, hactive, hd1dir, hd1exp, hd2dir, hd2exp⟩

/-- Witness for C6 (amended): the concrete double request of the
counterexample satisfies every freshness hypothesis. -/
theorem repeat_request_appends_spec_witness :
    (([⟨"car"⟩] : List Vehicle) ≠ [] ∧
     exEPS.active_overrides.any
       (fun kv => kv.1 = mkOverrideId ("loc") ("north") 0) = false ∧
     exEPS.active_overrides.any
       (fun kv => kv.1 = mkOverrideId ("loc") ("north") 1) = false ∧
     mkOverrideId ("loc") ("north") 0 ≠ mkOverrideId ("loc") ("north") 1) ∧
    (overridesFor
      ((handle_emergency_detection exMRConfig
        ((handle_emergency_detection exMRConfig exEPS ("loc") ("north")
          [⟨"car"⟩] 0).1)
        ("loc") ("north") [⟨"car"⟩] 1).1) ("north")
      = overridesFor exEPS ("north") + 2 ∧
    ∃ d1 d2 : OverrideData,
      ((handle_emergency_detection exMRConfig
        ((handle_emergency_detection exMRConfig exEPS ("loc") ("north")
          [⟨"car"⟩] 0).1)
        ("loc") ("north") [⟨"car"⟩] 1).1).active_overrides
        = exEPS.active_overrides
          ++ [(mkOverrideId ("loc") ("north") 0, d1),
              (mkOverrideId ("loc") ("north") 1, d2)] ∧
      d1.direction = "north" ∧ d1.expires_at = 0 + exEPS.priority_duration ∧
      d2.direction = "north" ∧ d2.expires_at = 1 + exEPS.priority_duration) :=
  ⟨⟨by decide, by decide, by decide, by decide⟩,
   repeat_request_appends_spec exMRConfig exEPS ("loc") ("north")
     [⟨"car"⟩] [⟨"car"⟩] 0 1 (by decide) (by decide) (by decide) (by decide)
     (by decide)⟩

/-- C7: for every override collection with (dict-guaranteed) distinct ids,
`check_expired_overrides now` removes exactly the overrides whose
`expires_at ≤ now`, keeps every override with `expires_at > now`, and
returns the number removed; afterwards a lane whose overrides were all
expired has no active priority; in particular a request made at `T` with
the 60-second priority duration is still active when sweeping at `T+59`
and removed when sweeping at `T+61`. -/
theorem check_expired_overrides_spec (sys : EPSState) (now : ℚ)
    (hnd : (sys.active_overrides.map Prod.fst).Nodup) :
    (check_expired_overrides sys now).1.active_overrides
      = sys.active_overrides.filter (fun kv => now < kv.2.expires_at) ∧
    (check_expired_overrides sys now).2
      = (sys.active_overrides.filter (fun kv => kv.2.expires_at ≤ now)).length ∧
    (∀ dir : String,
      (∀ kv ∈ sys.active_overrides, kv.2.direction = dir → kv.2.expires_at ≤ now) →
      active_priority_for (check_expired_overrides sys now).1 dir = false) ∧
    (∀ (c : MRConfig) (loc dir : String) (vs : List Vehicle) (T : ℚ), vs ≠ [] →
      active_priority_for
        (check_expired_overrides
          ((handle_emergency_detection c
            { priority_duration := 60, clear_time := sys.clear_time,
              active_overrides := [] } loc dir vs T).1) (T + 59)).1 dir = true ∧
      active_priority_for
        (check_expired_overrides
          ((handle_emergency_detection c
            { priority_duration := 60, clear_time := sys.clear_time,
              active_overrides := [] } loc dir vs T).1) (T + 61)).1 dir = false) := by
  have hmain : (check_expired_overrides sys now).1.active_overrides
      = sys.active_overrides.filter (fun kv => now < kv.2.expires_at) := by
    unfold check_expired_overrides
    simp only
    apply List.filter_congr
    intro kv hkv
    simp only [decide_eq_decide]
    rw [not_iff_comm, not_lt]
    constructor
    · intro hle
      simp only [List.elem_iff, List.mem_map]
      exact ⟨kv, List.mem_filter.mpr ⟨hkv, by simpa using hle⟩, rfl⟩
    · intro hc
      simp only [List.elem_iff, List.mem_map] at hc
      obtain ⟨kv', hkv', hfst⟩ := hc
      rw [List.mem_filter] at hkv'
      have : kv' = kv :=
        List.inj_on_of_nodup_map hnd hkv'.1 hkv hfst
      rw [← this]
      simpa using hkv'.2
  refine ⟨hmain, ?_, ?_, ?_⟩
  · unfold check_expired_overrides
    simp [List.length_map]
  · intro dir hall
    unfold active_priority_for get_active_overrides
    rw [hmain, Bool.eq_false_iff]
    intro hany
    rw [List.any_eq_true] at hany
    obtain ⟨kv, hmem, hdir⟩ := hany
    rw [List.mem_filter] at hmem
    have hle := hall kv hmem.1 (by simpa using hdir)
    have hlt : now < kv.2.expires_at := by simpa using hmem.2
    exact absurd hle (not_le.mpr hlt)
  · intro c loc dir vs T hvs
    obtain ⟨d, hs, hddir, hdexp⟩ :=
      handle_emergency_detection_step c
        { priority_duration := 60, clear_time := sys.clear_time,
          active_overrides := [] } loc dir vs T hvs (by simp)
    simp only at hs hdexp
    constructor
    · unfold check_expired_overrides active_priority_for get_active_overrides
      rw [hs]
      simp only [List.nil_append]
      have hnotexp : ¬d.expires_at ≤ T + 59 := by
        rw [hdexp]
        intro h
        linarith
      simp [hnotexp, hddir]
    · unfold check_expired_overrides active_priority_for get_active_overrides
      rw [hs]
      simp only [List.nil_append]
      have hexp : d.expires_at ≤ T + 61 := by
        rw [hdexp]
        linarith
      simp [hexp]

/-- Witness for C7 on a concrete two-override collection at sweep time 61. -/
theorem check_expired_overrides_spec_witness :
    ((((handle_emergency_detection exMRConfig
        ((handle_emergency_detection exMRConfig exEPS ("loc") ("north")
          [⟨"car"⟩] 0).1)
        ("loc") ("south") [⟨"car"⟩] 1).1).active_overrides.map Prod.fst).Nodup) ∧
    (check_expired_overrides
        ((handle_emergency_detection exMRConfig
          ((handle_emergency_detection exMRConfig exEPS ("loc") ("north")
            [⟨"car"⟩] 0).1)
          ("loc") ("south") [⟨"car"⟩] 1).1) 61).1.active_overrides
      = ((handle_emergency_detection exMRConfig
          ((handle_emergency_detection exMRConfig exEPS ("loc") ("north")
            [⟨"car"⟩] 0).1)
          ("loc") ("south") [⟨"car"⟩] 1).1).active_overrides.filter
          (fun kv => (61 : ℚ) < kv.2.expires_at) := by
  refine ⟨by decide, ?_⟩
  exact (check_expired_overrides_spec
    ((handle_emergency_detection exMRConfig
      ((handle_emergency_detection exMRConfig exEPS ("loc") ("north")
        [⟨"car"⟩] 0).1)
      ("loc") ("south") [⟨"car"⟩] 1).1) 61 (by decide)).1

/-- C8: `manual_clear_override` returns `true` exactly when the id is
present; the resulting collection is the original minus the entries keyed
by that id (hence unchanged, with no exception, when the id is unknown or
already cleared); clearing the same id again returns `false`. -/
theorem manual_clear_override_spec (sys : EPSState) (oid : String) :
    (manual_clear_override sys oid).2
      = sys.active_overrides.any (fun kv => kv.1 = oid) ∧
    (manual_clear_override sys oid).1
      = { sys with active_overrides :=
            sys.active_overrides.filter (fun kv => ¬kv.1 = oid) } ∧
    (manual_clear_override (manual_clear_override sys oid).1 oid).2 = false := by
  have hfid : ∀ l : List (String × OverrideData),
      (l.filter (fun kv => ¬kv.1 = oid)).any (fun kv => kv.1 = oid) = false := by
    intro l
    rw [Bool.eq_false_iff]
    intro hany
    rw [List.any_eq_true] at hany
    obtain ⟨kv, hmem, hkv⟩ := hany
    rw [List.mem_filter] at hmem
    simp only [decide_eq_true_eq] at hmem hkv
    exact hmem.2 hkv
  have hM : ∀ t : EPSState, manual_clear_override t oid =
      if t.active_overrides.any (fun kv => kv.1 = oid) = true
      then ({ t with active_overrides :=
                t.active_overrides.filter (fun kv => ¬kv.1 = oid) }, true)
      else (t, false) := by
    intro t
    unfold manual_clear_override
    by_cases hp : t.active_overrides.any (fun kv => kv.1 = oid) = true
    · rw [if_neg (not_not_intro hp), if_pos hp]
    · rw [if_pos hp, if_neg hp]
  rw [hM sys]
  by_cases hp : sys.active_overrides.any (fun kv => kv.1 = oid) = true
  · rw [if_pos hp]
    refine ⟨hp.symm, rfl, ?_⟩
    rw [hM _]
    rw [if_neg ?hc]
    case hc =>
      show ¬((_ : EPSState).active_overrides.any _ = true)
      simp only
      rw [hfid]
      simp
  · rw [if_neg hp]
    have hall : sys.active_overrides.filter (fun kv => ¬kv.1 = oid)
        = sys.active_overrides := by
      apply List.filter_eq_self.mpr
      intro kv hkv
      simp only [decide_eq_true_eq]
      intro he
      exact hp (List.any_eq_true.mpr ⟨kv, hkv, by simp [he]⟩)
    refine ⟨?_, ?_, ?_⟩
    · rw [Bool.not_eq_true] at hp
      exact hp.symm
    · show sys = _
      rw [hall]
    · rw [hM sys, if_neg hp]

/-- C9 counterexample: `handle_emergency` flips the GREEN lane to YELLOW
but does NOT reset the phase clock (`cycle_start`) or the planned duration,
so the YELLOW interval ends as soon as the TOTAL elapsed time since the
GREEN began reaches `yellow_time` — possibly immediately — rather than
lasting until "elapsed + yellowTime" after the emergency.  Concretely: lane
0 has been GREEN since time 0 (planned 20 s); an emergency for lane 1
arrives in the `update` at time 12.  The claim predicts lane 0 stays
YELLOW until 12 + 3 = 15, but the very same `update` call at time 12
already moves lane 0 to RED and grants lane 1 GREEN. -/
theorem emergency_truncation_counterexample :
    ((handle_emergency defaultConfig exGreenState 1).sig 0).state
      = SignalState.YELLOW ∧
    ((handle_emergency defaultConfig exGreenState 1).sig 0).cycle_start = 0 ∧
    ((handle_emergency defaultConfig exGreenState 1).sig 0).green_time = 20 ∧
    ((update defaultConfig exGreenState 12 exAn).sig 0).state
      = SignalState.RED ∧
    (update defaultConfig exGreenState 12 exAn).active_lane = 1 ∧
    ((update defaultConfig exGreenState 12 exAn).sig 1).state
      = SignalState.GREEN ∧
    (12 : ℚ) < 12 + defaultConfig.yellow_time := by
  refine ⟨by decide, by decide, by decide, ?_, ?_, ?_, by norm_num [defaultConfig]⟩ <;>
    norm_num [update, emergencyScan, firstEmergencyLane, handle_emergency, exGreenState,
      exAn, allRedState, switch_to_next_lane, patchTimeRemaining, argmaxLane,
      lanePriority, calculate_green_time, defaultConfig, CState.sig, setRed,
      List.findIdx?, List.foldl, List.range, List.range.loop, List.set, List.getD,
      default, instInhabitedSignal,
      show ¬(SignalState.YELLOW = SignalState.GREEN) from (by decide),
      show ¬(SignalState.RED = SignalState.GREEN) from (by decide),
      show ¬(SignalState.RED = SignalState.YELLOW) from (by decide)]

/-- C9 (amended): when an emergency for lane `L` arrives while a different
lane `A` is GREEN, the emergency scan immediately moves `A` to YELLOW with
`time_remaining = yellow_time`, leaving `cycle_start` and `green_time`
untouched (so the phase is never extended, and the YELLOW interval expires
once the total elapsed time since the GREEN began reaches `yellow_time`,
possibly immediately); `L` carries the absolute-precedence score 1000, and
when the yellow interval has expired at this `update` and every other
lane's score is below 1000, the all-red path runs and `L` is granted GREEN
with the configured emergency green time. -/
theorem emergency_interjection_spec (cfg : Config) (s : CState) (now : ℚ)
    (an : Analysis) (L A : ℕ)
    (hep : cfg.emergency_priority = true)
    (hA : s.active_lane = A)
    (hAL : A ≠ L)
    (hAlen : A < s.signals.length)
    (hG : (s.sig A).state = SignalState.GREEN)
    (hhe : an.has_emergency = true)
    (hfirst : firstEmergencyLane an = Option.some L)
    (hE : 0 < (an.lanes.getD L default).emergency)
    (hLn : L < s.num_lanes)
    (hLlen : L < s.signals.length)
    (hdom : ∀ j, j < s.num_lanes → j ≠ L → lanePriority s an j < 1000)
    (htime : now - (s.sig A).cycle_start ≥ cfg.yellow_time) :
    ((emergencyScan cfg s an).sig A).state = SignalState.YELLOW ∧
    ((emergencyScan cfg s an).sig A).time_remaining = cfg.yellow_time ∧
    ((emergencyScan cfg s an).sig A).cycle_start = (s.sig A).cycle_start ∧
    ((emergencyScan cfg s an).sig A).green_time = (s.sig A).green_time ∧
    lanePriority s an L = 1000 ∧
    (update cfg s now an).active_lane = L ∧
    ((update cfg s now an).sig L).state = SignalState.GREEN ∧
    ((update cfg s now an).sig L).green_time = cfg.emergency_green_time := by
  have hAact : s.active_lane ≠ L := by
    rw [hA]
    exact hAL
  have hs1 : emergencyScan cfg s an
      = { s with
            signals := s.signals.set A
              { (s.sig A) with state := SignalState.YELLOW,
                               time_remaining := cfg.yellow_time },
            next_lane := Option.some L,
            emergency_mode := Option.some true } := by
    unfold emergencyScan
    rw [hhe, hfirst]
    simp only [if_pos]
    unfold handle_emergency
    rw [if_neg (by simp [hep]), if_pos hAact]
    dsimp only
    rw [hA, if_pos hG]
  have hsigA : (emergencyScan cfg s an).sig A
      = { (s.sig A) with state := SignalState.YELLOW,
                         time_remaining := cfg.yellow_time } := by
    rw [hs1]
    unfold CState.sig
    exact getD_set_lt _ _ _ hAlen
  have hpriL : lanePriority s an L = 1000 := by
    unfold lanePriority
    rw [if_neg (by rw [hA]; exact fun h => hAL h.symm), if_pos hE]
  have hS1a : (emergencyScan cfg s an).active_lane = A := by
    rw [emergencyScan_active, hA]
  have hupd : update cfg s now an
      = patchTimeRemaining
          (switch_to_next_lane cfg (allRedState (emergencyScan cfg s an) now) an
            (now + cfg.all_red_time))
          (now - ((emergencyScan cfg s an).sig A).cycle_start) := by
    unfold update
    dsimp only
    rw [hS1a]
    rw [if_neg (by rw [hsigA]; simp), if_pos (by rw [hsigA])]
    rw [if_pos (by rw [hsigA]; simpa using htime)]
  have hsel : argmaxLane (allRedState (emergencyScan cfg s an) now).num_lanes
      (lanePriority (allRedState (emergencyScan cfg s an) now) an) = L := by
    rw [allRedState_num_lanes, emergencyScan_num_lanes]
    rw [lanePriority_congr (allRedState (emergencyScan cfg s an) now) s an
      (by rw [allRedState_active, hS1a, hA])]
    apply argmaxLane_eq _ _ _ hLn
    intro j hj hne
    rw [hpriL]
    exact hdom j hj hne
  have hswactive : (switch_to_next_lane cfg (allRedState (emergencyScan cfg s an) now)
      an (now + cfg.all_red_time)).active_lane = L := by
    unfold switch_to_next_lane
    exact hsel
  have hswlen : L < (allRedState (emergencyScan cfg s an) now).signals.length := by
    rw [allRedState_signals_length, emergencyScan_signals_length]
    exact hLlen
  have hswsig : (switch_to_next_lane cfg (allRedState (emergencyScan cfg s an) now)
        an (now + cfg.all_red_time)).sig L
      = { ((allRedState (emergencyScan cfg s an) now).sig L) with
            state := SignalState.GREEN
            cycle_start := now + cfg.all_red_time
            green_time := cfg.emergency_green_time
            time_remaining := cfg.emergency_green_time } := by
    unfold switch_to_next_lane CState.sig
    dsimp only
    rw [hsel, if_pos hE]
    exact getD_set_lt _ _ _ hswlen
  refine ⟨by rw [hsigA], by rw [hsigA], by rw [hsigA], by rw [hsigA], hpriL, ?_, ?_, ?_⟩
  · rw [hupd, patchTimeRemaining_active, hswactive]
  · rw [hupd, (patchTimeRemaining_sig _ _ L).1, hswsig]
  · rw [hupd, (patchTimeRemaining_sig _ _ L).2, hswsig]

/-- Witness for C9 (amended): emergency for lane 1 while lane 0 has been
GREEN since time 0, updated at time 12. -/
theorem emergency_interjection_spec_witness :
    (defaultConfig.emergency_priority = true ∧
     exGreenState.active_lane = 0 ∧ (0 : ℕ) ≠ 1 ∧
     0 < exGreenState.signals.length ∧
     (exGreenState.sig 0).state = SignalState.GREEN ∧
     exAn.has_emergency = true ∧
     firstEmergencyLane exAn = Option.some 1 ∧
     0 < (exAn.lanes.getD 1 default).emergency ∧
     1 < exGreenState.num_lanes ∧
     1 < exGreenState.signals.length ∧
     (∀ j, j < exGreenState.num_lanes → j ≠ 1 →
        lanePriority exGreenState exAn j < 1000) ∧
     (12 : ℚ) - (exGreenState.sig 0).cycle_start ≥ defaultConfig.yellow_time) ∧
    (((emergencyScan defaultConfig exGreenState exAn).sig 0).state
        = SignalState.YELLOW ∧
     ((emergencyScan defaultConfig exGreenState exAn).sig 0).time_remaining
        = defaultConfig.yellow_time ∧
     ((emergencyScan defaultConfig exGreenState exAn).sig 0).cycle_start
        = (exGreenState.sig 0).cycle_start ∧
     ((emergencyScan defaultConfig exGreenState exAn).sig 0).green_time
        = (exGreenState.sig 0).green_time ∧
     lanePriority exGreenState exAn 1 = 1000 ∧
     (update defaultConfig exGreenState 12 exAn).active_lane = 1 ∧
     ((update defaultConfig exGreenState 12 exAn).sig 1).state
        = SignalState.GREEN ∧
     ((update defaultConfig exGreenState 12 exAn).sig 1).green_time
        = defaultConfig.emergency_green_time) :=
  ⟨⟨by decide, by decide, by decide, by decide, by decide, by decide, by decide,
    by decide, by decide, by decide, by decide,
    by norm_num [exGreenState, CState.sig, defaultConfig]⟩,
   emergency_interjection_spec defaultConfig exGreenState 12 exAn 1 0
     (by decide) (by decide) (by decide) (by decide) (by decide) (by decide)
     (by decide) (by decide) (by decide) (by decide) (by decide)
     (by norm_num [exGreenState, CState.sig, defaultConfig])⟩

/-- C10: when emergency priority is disabled, or when the emergency is
reported for the lane that is already active, `handle_emergency` returns
the whole controller state — every lane's state, remaining time and
planned green duration — unchanged. -/
theorem handle_emergency_frame_spec (cfg : Config) (s : CState) (lane_id : ℕ) :
    (cfg.emergency_priority = false → handle_emergency cfg s lane_id = s) ∧
    (s.active_lane = lane_id → handle_emergency cfg s lane_id = s) := by
  constructor
  · intro h
    unfold handle_emergency
    rw [if_pos (by simp [h])]
  · intro h
    unfold handle_emergency
    split
    · rfl
    · rw [if_neg (by simpa using h)]

/-- Witness for C10: disabled-priority and same-lane instances. -/
theorem handle_emergency_frame_spec_witness :
    (exCfgNoEP.emergency_priority = false ∧
     handle_emergency exCfgNoEP exGreenState 1 = exGreenState) ∧
    (exGreenState.active_lane = 0 ∧
     handle_emergency defaultConfig exGreenState 0 = exGreenState) :=
  ⟨⟨by decide, (handle_emergency_frame_spec exCfgNoEP exGreenState 1).1 (by decide)⟩,
   ⟨by decide, (handle_emergency_frame_spec defaultConfig exGreenState 0).2 (by decide)⟩⟩

/-- Witness for C4 (amended) on a 6-sample history. -/
theorem calcTrend_amended_spec_witness :
    5 < ([0, 0, 0, 0, 0, 100] : List ℕ).length ∧
    (calculate_density [0, 0, 0, 0, 0, 100]).trend =
      (if meanQ (([0, 0, 0, 0, 0, 100] : List ℕ).drop
              (([0, 0, 0, 0, 0, 100] : List ℕ).length - 5))
            > meanQ (([0, 0, 0, 0, 0, 100] : List ℕ).take
              (([0, 0, 0, 0, 0, 100] : List ℕ).length - 5)) * (12/10 : ℚ) then
         Trend.increasing
       else if meanQ (([0, 0, 0, 0, 0, 100] : List ℕ).drop
              (([0, 0, 0, 0, 0, 100] : List ℕ).length - 5))
            < meanQ (([0, 0, 0, 0, 0, 100] : List ℕ).take
              (([0, 0, 0, 0, 0, 100] : List ℕ).length - 5)) * (8/10 : ℚ) then
         Trend.decreasing
       else Trend.stable) :=
  ⟨by decide, (calcTrend_amended_spec [0, 0, 0, 0, 0, 100]).2.2 (by decide)⟩

end Traffic
